import Mathlib

/-!
Shallow embedding of `src/Cubefile/Cubefile.py` (the `Cubefile` class: its
`reset`, derived properties, `read`, `read_iterator` and `__init__`).

Modelling choices:
* numpy `float64` values are modelled as exact rationals (`ℚ`);
* a Python exception is a value of the inductive `Exc`; a method that can
  raise is a function into `Except Exc _` (or returns the post-state paired
  with `Option Exc` for methods that mutate `self`);
* an iterator of lines is a `List String`; a file's text and an in-memory
  text blob are `String`s, turned into lines by `fileLines` (Python text-file
  iteration, keeping the trailing newline) and `splitlines` (Python
  `str.splitlines`, dropping the newline);
* the filesystem seen by `os.path.isfile`/`open` is a map
  `String → Option String` from path to file content;
* the `scale` vector holds the squares of the values computed by the code
  (`numpy.linalg.norm(voxel_shape, axis=1) * unit_conversion`): the norm is a
  square root, which ℚ lacks, and `x ↦ x^2` is a bijection on the nonnegative
  values that occur, so equalities of `scale` are faithfully preserved.
-/

set_option maxRecDepth 8000

namespace CubeModel

/-- Whitespace for Python `str.split()` with no argument and for the regexp
`\S+` used on the voxel payload. -/
def isPyWS (c : Char) : Bool :=
  c = ' ' || c = '\t' || c = '\n' || c = '\r' || c = '\x0b' || c = '\x0c'

/-- Accumulating worker for `pySplit`: splits a character list into maximal
runs of non-whitespace characters. -/
def splitWSAux : List Char → List Char → List (List Char)
  | [], acc => if acc = [] then [] else [acc.reverse]
  | c :: cs, acc =>
    if isPyWS c then
      if acc = [] then splitWSAux cs []
      else acc.reverse :: splitWSAux cs []
    else splitWSAux cs (c :: acc)

/-- Python `s.split()` (no separator argument): whitespace-separated tokens,
empty tokens dropped.  Also models `re.findall(r"\S+", s)`. -/
def pySplit (s : String) : List String :=
  (splitWSAux s.data []).map String.mk

/-- Accumulating worker for `splitlines`. -/
def splitlinesAux : List Char → List Char → List (List Char)
  | [], acc => if acc = [] then [] else [acc.reverse]
  | c :: cs, acc =>
    if c = '\n' then acc.reverse :: splitlinesAux cs []
    else splitlinesAux cs (c :: acc)

/-- Python `str.splitlines()`: lines without their terminator; no trailing
empty line for a trailing newline; `""` gives `[]`. -/
def splitlines (s : String) : List String :=
  (splitlinesAux s.data []).map String.mk

/-- Accumulating worker for `fileLines`. -/
def fileLinesAux : List Char → List Char → List (List Char)
  | [], acc => if acc = [] then [] else [acc.reverse]
  | c :: cs, acc =>
    if c = '\n' then ('\n' :: acc).reverse :: fileLinesAux cs []
    else fileLinesAux cs (c :: acc)

/-- Iterating a Python text file with content `s`: each yielded line keeps its
trailing `'\n'`; a last line without a terminator is yielded as-is. -/
def fileLines (s : String) : List String :=
  (fileLinesAux s.data []).map String.mk

/-- Consume leading decimal digits of a character list, accumulating their
value and count; returns (value, digit count, remainder). -/
def takeDigits : List Char → Nat → Nat → Nat × Nat × List Char
  | [], acc, n => (acc, n, [])
  | c :: cs, acc, n =>
    if c.isDigit then takeDigits cs (acc * 10 + (c.toNat - 48)) (n + 1)
    else (acc, n, c :: cs)

/-- Python `int(token)` on a whitespace-free token: optional sign followed by
at least one digit, nothing else.  `none` models the raised `ValueError`. -/
def pyIntCore (s : String) : Option Int :=
  let p : Bool × List Char :=
    match s.data with
    | '-' :: r => (true, r)
    | '+' :: r => (false, r)
    | r => (false, r)
  let d := takeDigits p.2 0 0
  if p.1 then
    if 0 < d.2.1 && d.2.2 = ([] : List Char) then some (-(d.1 : Int)) else none
  else
    if 0 < d.2.1 && d.2.2 = ([] : List Char) then some ((d.1 : Int)) else none

/-- Mantissa of a float literal: digits with an optional decimal point; at
least one digit overall.  Returns the value and the unconsumed remainder. -/
def floatMantissa (cs : List Char) : Option (ℚ × List Char) :=
  let d := takeDigits cs 0 0
  match d.2.2 with
  | '.' :: r2 =>
    let f := takeDigits r2 0 0
    if 0 < d.2.1 + f.2.1 then
      some ((d.1 : ℚ) + (f.1 : ℚ) / ((10 : ℚ) ^ f.2.1), f.2.2)
    else none
  | r => if 0 < d.2.1 then some ((d.1 : ℚ), r) else none

/-- Python `float(token)` (also numpy float64 parsing of a token): optional
sign, mantissa, optional exponent part.  `none` models the raised
`ValueError`. -/
def pyFloatCore (s : String) : Option ℚ :=
  let p : Bool × List Char :=
    match s.data with
    | '-' :: r => (true, r)
    | '+' :: r => (false, r)
    | r => (false, r)
  match floatMantissa p.2 with
  | none => none
  | some (m, r) =>
    let q : Option ℚ :=
      match r with
      | [] => some m
      | e :: r2 =>
        if e = 'e' || e = 'E' then
          let ep : Bool × List Char :=
            match r2 with
            | '-' :: t => (true, t)
            | '+' :: t => (false, t)
            | t => (false, t)
          let d := takeDigits ep.2 0 0
          if 0 < d.2.1 && d.2.2 = ([] : List Char) then
            some (if ep.1 then m / ((10 : ℚ) ^ d.1) else m * ((10 : ℚ) ^ d.1))
          else none
        else none
    match q with
    | none => none
    | some v => some (if p.1 then -v else v)

/-- Python exceptions that the modelled code can raise. -/
inductive Exc where
  | stopIteration : Exc
  | indexError (msg : String) : Exc
  | typeError (msg : String) : Exc
  | valueError (args : List String) : Exc
deriving DecidableEq, Repr

/-- The `args` tuple of an exception, as used by `*e.args` in the source. -/
def Exc.args : Exc → List String
  | .stopIteration => []
  | .indexError m => [m]
  | .typeError m => [m]
  | .valueError a => a

/-- Python `l[i]` on a list of tokens: `IndexError` when out of range. -/
def pyIndex (l : List String) (i : Nat) : Except Exc String :=
  match l.get? i with
  | some s => Except.ok s
  | none => Except.error (Exc.indexError "list index out of range")

/-- Python `int(s)`, raising `ValueError` on a malformed literal. -/
def pyInt (s : String) : Except Exc Int :=
  match pyIntCore s with
  | some n => Except.ok n
  | none => Except.error (Exc.valueError ["invalid literal for int() with base 10"])

/-- Python `float(s)` / numpy float64 conversion of one token, raising
`ValueError` on a malformed literal. -/
def pyFloat (s : String) : Except Exc ℚ :=
  match pyFloatCore s with
  | some q => Except.ok q
  | none => Except.error (Exc.valueError ["could not convert string to float"])

/-- Convert every token to a float, failing on the first malformed one:
models `list(map(float, tokens))` and `numpy.asarray(tokens, dtype=float)`. -/
def mapFloat : List String → Except Exc (List ℚ)
  | [] => Except.ok []
  | s :: ss =>
    (pyFloat s).bind fun q =>
    (mapFloat ss).bind fun qs =>
    Except.ok (q :: qs)

/-- Python slice `l[a:b]`. -/
def sliceList (l : List String) (a b : Nat) : List String :=
  (l.drop a).take (b - a)

/-- Next line of the iterator: `next(iterator)` raising `StopIteration`. -/
def nextLine : List String → Except Exc (String × List String)
  | [] => Except.error Exc.stopIteration
  | l :: ls => Except.ok (l, ls)

/-- A numpy 1-vector of three float64 values. -/
structure Vec3 where
  x : ℚ
  y : ℚ
  z : ℚ
deriving DecidableEq, Repr

/-- Component `i` of a 3-vector. -/
def Vec3.nth (v : Vec3) (i : Fin 3) : ℚ := [v.x, v.y, v.z].get i

/-- A numpy 3×3 float64 matrix, one `Vec3` per row. -/
structure Mat3 where
  r0 : Vec3
  r1 : Vec3
  r2 : Vec3
deriving DecidableEq, Repr

/-- An n-dimensional numpy float64 array: its shape and its flat data in
row-major (C) order. -/
structure NpArray where
  shape : List Nat
  data : List ℚ
deriving DecidableEq, Repr

/-- One parsed atom record (the dict appended to `self.atoms`). -/
structure Atom where
  element : Int
  charge : ℚ
  xyz : Vec3
deriving DecidableEq, Repr

/-- The record held by a `Cubefile` object. -/
structure Cubefile where
  filename : Option String
  header : String
  origin : Vec3
  voxel_shape : Mat3
  unit_conversion : Vec3
  scale : Vec3
  atoms : List Atom
  voxels : NpArray
deriving DecidableEq, Repr

/-- The constant `BOHR_TO_ANGSTROM = 5.29177210903 / 10.0`. -/
def BOHR_TO_ANGSTROM : ℚ := (529177210903 : ℚ) / (10 : ℚ) ^ 12

/-- The state produced by `Cubefile.reset`: `filename = None`, empty header,
zero origin, `voxel_shape = ones((3,3))`, `unit_conversion = ones(3)`,
`scale = [1,1,1]`, no atoms, `voxels = zeros((0,))`. -/
def resetState : Cubefile :=
  { filename := none
    header := ""
    origin := ⟨0, 0, 0⟩
    voxel_shape := ⟨⟨1, 1, 1⟩, ⟨1, 1, 1⟩, ⟨1, 1, 1⟩⟩
    unit_conversion := ⟨1, 1, 1⟩
    scale := ⟨1, 1, 1⟩
    atoms := []
    voxels := ⟨[0], []⟩ }

/-- Numpy assignment of a parsed 1-D array into one row of `voxel_shape`
(`self.voxel_shape[i] = asarray(tokens)`): 3 values land elementwise, a single
value broadcasts across the row, any other length raises. -/
def rowAssign : List ℚ → Except Exc Vec3
  | [x, y, z] => Except.ok ⟨x, y, z⟩
  | [x] => Except.ok ⟨x, x, x⟩
  | _ => Except.error (Exc.valueError ["could not broadcast input array"])

/-- Numpy elementwise multiply of a 1-D array (length 0–3) with a 3-vector:
length 3 multiplies elementwise, length 1 broadcasts, otherwise the shapes do
not broadcast and numpy raises. -/
def bmul (a : List ℚ) (u : Vec3) : Except Exc Vec3 :=
  match a with
  | [x, y, z] => Except.ok ⟨x * u.x, y * u.y, z * u.z⟩
  | [x] => Except.ok ⟨x * u.x, x * u.y, x * u.z⟩
  | _ => Except.error (Exc.valueError ["operands could not be broadcast together"])

/-- Squared Euclidean norm of a row of `voxel_shape`. -/
def normSq (v : Vec3) : ℚ := v.x ^ 2 + v.y ^ 2 + v.z ^ 2

/-- The `scale` vector, in the squared encoding (see the file comment):
component `i` is `(norm(voxel_shape[i]) * unit_conversion[i])^2`. -/
def scaleVec (m : Mat3) (u : Vec3) : Vec3 :=
  ⟨normSq m.r0 * u.x ^ 2, normSq m.r1 * u.y ^ 2, normSq m.r2 * u.z ^ 2⟩

/-- The non-square-voxel test: `multiply(voxel_shape, 1 - identity(3)).any()`,
i.e. some off-diagonal entry of `voxel_shape` is nonzero. -/
def offDiagAny (m : Mat3) : Bool :=
  (m.r0.y != 0) || (m.r0.z != 0) || (m.r1.x != 0) || (m.r1.z != 0) ||
  (m.r2.x != 0) || (m.r2.y != 0)

/-- One iteration of the axis loop (lines 4–6): read the signed voxel count
(negative means Ångström, non-negative means Bohr), then the row of
`voxel_shape`.  Returns (stored count, unit conversion, row). -/
def axisStep (line : String) : Except Exc (Nat × ℚ × Vec3) :=
  (pyIndex (pySplit line) 0).bind fun t0 =>
  (pyInt t0).bind fun n =>
  (mapFloat (sliceList (pySplit line) 1 4)).bind fun rowRaw =>
  (rowAssign rowRaw).bind fun row =>
  Except.ok
    (if n < 0 then (-n).toNat else n.toNat,
     (if n < 0 then (1 : ℚ) else BOHR_TO_ANGSTROM),
     row)

/-- The atom loop `for _ in range(atom_count)`, already clamped to a `Nat`
iteration count: each round reads one line, parses element, charge and the
unit-converted coordinates, and appends the atom. -/
def readAtoms (uc : Vec3) : Nat → List String → Except Exc (List Atom × List String)
  | 0, rest => Except.ok ([], rest)
  | Nat.succ k, rest =>
    (nextLine rest).bind fun p =>
    (pyIndex (pySplit p.1) 0).bind fun t0 =>
    (pyInt t0).bind fun el =>
    (pyIndex (pySplit p.1) 1).bind fun t1 =>
    (pyFloat t1).bind fun ch =>
    (mapFloat (sliceList (pySplit p.1) 2 5)).bind fun xyzRaw =>
    (bmul xyzRaw uc).bind fun xyz =>
    (readAtoms uc k p.2).bind fun ar =>
    Except.ok (⟨el, ch, xyz⟩ :: ar.1, ar.2)

/-- The fully parsed quantities of the header, axis and atom sections, before
the voxel payload; `voxel_count` is the list of the three stored (absolute)
per-axis counts, the shape given to `numpy.zeros`. -/
structure HeadCore where
  header : String
  origin : Vec3
  voxel_shape : Mat3
  unit_conversion : Vec3
  scale : Vec3
  newAtoms : List Atom
  voxel_count : List Nat
deriving DecidableEq, Repr

/-- Lines 1 through `7+atom_count-1` of `read_iterator`: header, atom-count /
origin line, the three axis lines, the non-square check, the origin unit
conversion, the scale computation and the atom loop.  Returns the parsed
quantities and the unconsumed remainder of the iterator. -/
def parseHead (lines : List String) : Except Exc (HeadCore × List String) :=
  (nextLine lines).bind fun p0 =>
  (nextLine p0.2).bind fun p1 =>
  (nextLine p1.2).bind fun p2 =>
  (pyIndex (pySplit p2.1) 0).bind fun t0 =>
  (pyInt t0).bind fun ac =>
  (mapFloat (sliceList (pySplit p2.1) 1 4)).bind fun originRaw =>
  (nextLine p2.2).bind fun q0 =>
  (axisStep q0.1).bind fun s0 =>
  (nextLine q0.2).bind fun q1 =>
  (axisStep q1.1).bind fun s1 =>
  (nextLine q1.2).bind fun q2 =>
  (axisStep q2.1).bind fun s2 =>
  if offDiagAny ⟨s0.2.2, s1.2.2, s2.2.2⟩ then
    Except.error (Exc.valueError ["Non square voxel shape."])
  else
    (bmul originRaw ⟨s0.2.1, s1.2.1, s2.2.1⟩).bind fun origin =>
    (readAtoms ⟨s0.2.1, s1.2.1, s2.2.1⟩ ac.toNat q2.2).bind fun ar =>
    Except.ok
      (⟨p0.1 ++ p1.1, origin,
        ⟨s0.2.2, s1.2.2, s2.2.2⟩,
        ⟨s0.2.1, s1.2.1, s2.2.1⟩,
        scaleVec ⟨s0.2.2, s1.2.2, s2.2.2⟩ ⟨s0.2.1, s1.2.1, s2.2.1⟩,
        ar.1, [s0.1, s1.1, s2.1]⟩,
       ar.2)

/-- The voxel payload step: join the remaining lines with no separator
(`"".join(iterator)`), take the `\S+` tokens, convert them to floats and
reshape the flat array to the pre-allocated grid shape; reshape raises unless
the token count is exactly the product of the counts.  The final shape
comparison of the source is kept (it can never fire after a successful
reshape). -/
def parsePayload (counts : List Nat) (rest : List String) : Except Exc NpArray :=
  (mapFloat (pySplit (String.join rest))).bind fun qs =>
  if qs.length = counts.prod then
    if (NpArray.mk counts qs).shape = counts then Except.ok ⟨counts, qs⟩
    else Except.error (Exc.valueError ["Could not read the correct number of voxels"])
  else Except.error (Exc.valueError ["cannot reshape array"])

/-- The whole body of the `try` block of `read_iterator`. -/
def parseLines (lines : List String) : Except Exc (HeadCore × NpArray) :=
  (parseHead lines).bind fun cr =>
  (parsePayload cr.1.voxel_count cr.2).bind fun vox =>
  Except.ok (cr.1, vox)

/-- The method `Cubefile.read_iterator`: on success every field except
`filename` is overwritten (the atom loop appends to the existing `atoms`
list); on any exception the object is reset and the exception is re-raised as
`ValueError("Error reading file", *e.args)`. -/
def Cubefile.read_iterator (self : Cubefile) (lines : List String) :
    Cubefile × Option Exc :=
  match parseLines lines with
  | Except.ok cv =>
    ({ filename := self.filename
       header := cv.1.header
       origin := cv.1.origin
       voxel_shape := cv.1.voxel_shape
       unit_conversion := cv.1.unit_conversion
       scale := cv.1.scale
       atoms := self.atoms ++ cv.1.newAtoms
       voxels := cv.2 }, none)
  | Except.error e =>
    (resetState, some (Exc.valueError ("Error reading file" :: e.args)))

/-- The values a caller can pass as `data_source`, as far as the code
distinguishes them: `None`, an `int`, a `str`, or a list of lines (any
non-`str` line-iterable). -/
inductive Src where
  | pyNone : Src
  | pyInt (n : Int) : Src
  | pyStr (s : String) : Src
  | pyList (lines : List String) : Src
deriving DecidableEq, Repr

/-- Rendering of a `data_source` as it appears inside the args of
`ValueError("Could not read", data_source)`. -/
def srcRepr : Src → String
  | .pyNone => "None"
  | .pyInt n => toString n
  | .pyStr s => s
  | .pyList _ => "<list>"

/-- Python truthiness of a `data_source` value, used by `__init__`. -/
def truthy : Src → Bool
  | .pyNone => false
  | .pyInt n => n != 0
  | .pyStr s => !s.isEmpty
  | .pyList ls => !ls.isEmpty

/-- The state of the object right after `self.filename = data_source` in the
file branch of `read`, before `read_iterator` runs on the file's lines. -/
def fileStartState (self : Cubefile) (p : String) : Cubefile :=
  { self with filename := some p }

/-- The method `Cubefile.read`.  `fs` maps an existing file's path to its
content.  The file branch sets `filename` and parses the file's lines; any
exception there (including a parse failure) is swallowed by
`except Exception: pass` and control falls through to the `str` branch.
A `str` source is parsed via `splitlines` with no exception handling.  Any
other iterable is parsed directly, with every exception swallowed and
replaced by `ValueError("Could not read", data_source)`. -/
def Cubefile.read (self : Cubefile) (fs : String → Option String) (src : Src) :
    Cubefile × Option Exc :=
  match src with
  | .pyStr s =>
    match fs s with
    | some content =>
      match (fileStartState self s).read_iterator (fileLines content) with
      | (r, none) => (r, none)
      | (r, some _) => r.read_iterator (splitlines s)
    | none => self.read_iterator (splitlines s)
  | .pyList ls =>
    match self.read_iterator ls with
    | (r, none) => (r, none)
    | (r, some _) =>
      (r, some (Exc.valueError ["Could not read", srcRepr (Src.pyList ls)]))
  | .pyNone => (self, some (Exc.valueError ["Could not read", srcRepr Src.pyNone]))
  | .pyInt n => (self, some (Exc.valueError ["Could not read", srcRepr (Src.pyInt n)]))

/-- The constructor `Cubefile(data_source)`: reset, then `read` only if the
source is truthy. -/
def Cubefile.init (fs : String → Option String) (src : Src) : Cubefile × Option Exc :=
  if truthy src then Cubefile.read resetState fs src else (resetState, none)

/-- A filesystem with no files. -/
def emptyFs : String → Option String := fun _ => none

/-- The property `Cubefile.voxel_count`: the shape tuple of `voxels`. -/
def Cubefile.voxel_count (self : Cubefile) : List Nat := self.voxels.shape

/-- The property `Cubefile.voxel_total`: `voxels.size`, the product of the
shape. -/
def Cubefile.voxel_total (self : Cubefile) : Nat := self.voxels.shape.prod

/-- The property `Cubefile.atom_count`: `len(self.atoms)`. -/
def Cubefile.atom_count (self : Cubefile) : Nat := self.atoms.length

/-- Numpy `.max()` over a flat list of values: `none` models the
`ValueError` numpy raises on a zero-size array. -/
def npMax : List ℚ → Option ℚ
  | [] => none
  | q :: qs => some (qs.foldl max q)

/-- The property `Cubefile.max_voxel_val`: `float(abs(voxels).max())`; `none`
models the exception raised when the voxel array has zero size. -/
def Cubefile.max_voxel_val (self : Cubefile) : Option ℚ :=
  npMax (self.voxels.data.map (fun q => |q|))

/-- Specification-side accessor: the signed voxel count declared on axis `i`
of an input stream, i.e. the integer value of the first token of line `4+i`
(index `3+i`). -/
def declaredAxisCount (lines : List String) (i : Fin 3) : Option Int :=
  (lines.get? (3 + i.val)).bind fun l => ((pySplit l).get? 0).bind pyIntCore

/-- Specification-side accessor: the atom count declared on line 3 (index 2)
of an input stream. -/
def declaredAtomCount (lines : List String) : Option Int :=
  (lines.get? 2).bind fun l => ((pySplit l).get? 0).bind pyIntCore

theorem exceptBind_ok {α β : Type} {e : Except Exc α} {f : α → Except Exc β} {b : β} :
    Except.bind e f = Except.ok b ↔ ∃ a, e = Except.ok a ∧ f a = Except.ok b := by
  cases e <;> simp [Except.bind]

theorem nextLine_ok {lines : List String} {p : String × List String} :
    nextLine lines = Except.ok p ↔ lines = p.1 :: p.2 := by
  cases lines <;> cases p <;> simp [nextLine]

theorem pyIndex_ok {l : List String} {i : Nat} {t : String} :
    pyIndex l i = Except.ok t ↔ l.get? i = some t := by
  unfold pyIndex; cases l.get? i <;> simp

theorem pyInt_ok {s : String} {n : Int} :
    pyInt s = Except.ok n ↔ pyIntCore s = some n := by
  unfold pyInt; cases pyIntCore s <;> simp

theorem axisStep_ok {line : String} {out : Nat × ℚ × Vec3}
    (h : axisStep line = Except.ok out) :
    ∃ t0 n rowRaw row, (pySplit line).get? 0 = some t0 ∧ pyIntCore t0 = some n ∧
      mapFloat (sliceList (pySplit line) 1 4) = Except.ok rowRaw ∧
      rowAssign rowRaw = Except.ok row ∧
      out = (if n < 0 then (-n).toNat else n.toNat,
             (if n < 0 then (1 : ℚ) else BOHR_TO_ANGSTROM), row) := by
  unfold axisStep at h
  simp only [exceptBind_ok] at h
  obtain ⟨t0, ht0, n, hn, rowRaw, hraw, row, hrow, hout⟩ := h
  rw [pyIndex_ok] at ht0
  rw [pyInt_ok] at hn
  simp only [Except.ok.injEq] at hout
  exact ⟨t0, n, rowRaw, row, ht0, hn, hraw, hrow, hout.symm⟩

theorem readAtoms_ok {uc : Vec3} {k : Nat} {rest : List String}
    {out : List Atom × List String} (h : readAtoms uc k rest = Except.ok out) :
    out.1.length = k ∧ out.2 = rest.drop k := by
  induction k generalizing rest out with
  | zero =>
    unfold readAtoms at h
    simp only [Except.ok.injEq] at h
    simp [← h]
  | succ m ih =>
    unfold readAtoms at h
    simp only [exceptBind_ok] at h
    obtain ⟨p, hp, t0, _, el, _, t1, _, ch, _, xyzRaw, _, xyz, _, ar, har, hout⟩ := h
    rw [nextLine_ok] at hp
    obtain ⟨h1, h2⟩ := ih har
    simp only [Except.ok.injEq] at hout
    subst hp
    constructor
    · rw [← hout]; simp [h1]
    · rw [← hout]; simp [h2]

theorem parseHead_ok {lines : List String} {c : HeadCore} {rest : List String}
    (h : parseHead lines = Except.ok (c, rest)) :
    ∃ l0 l1 l2 a0 a1 a2 tail t0 ac originRaw s0 s1 s2 origin atoms,
      lines = l0 :: l1 :: l2 :: a0 :: a1 :: a2 :: tail ∧
      (pySplit l2).get? 0 = some t0 ∧ pyIntCore t0 = some ac ∧
      mapFloat (sliceList (pySplit l2) 1 4) = Except.ok originRaw ∧
      axisStep a0 = Except.ok s0 ∧ axisStep a1 = Except.ok s1 ∧
      axisStep a2 = Except.ok s2 ∧
      offDiagAny ⟨s0.2.2, s1.2.2, s2.2.2⟩ = false ∧
      bmul originRaw ⟨s0.2.1, s1.2.1, s2.2.1⟩ = Except.ok origin ∧
      readAtoms ⟨s0.2.1, s1.2.1, s2.2.1⟩ ac.toNat tail = Except.ok (atoms, rest) ∧
      c = ⟨l0 ++ l1, origin,
           ⟨s0.2.2, s1.2.2, s2.2.2⟩,
           ⟨s0.2.1, s1.2.1, s2.2.1⟩,
           scaleVec ⟨s0.2.2, s1.2.2, s2.2.2⟩ ⟨s0.2.1, s1.2.1, s2.2.1⟩,
           atoms, [s0.1, s1.1, s2.1]⟩ := by
  unfold parseHead at h
  simp only [exceptBind_ok] at h
  obtain ⟨p0, hp0, p1, hp1, p2, hp2, t0, ht0, ac, hac, originRaw, horaw,
          q0, hq0, s0, hs0, q1, hq1, s1, hs1, q2, hq2, s2, hs2, hrest⟩ := h
  rw [nextLine_ok] at hp0 hp1 hp2 hq0 hq1 hq2
  rw [pyIndex_ok] at ht0
  rw [pyInt_ok] at hac
  cases hoff : offDiagAny ⟨s0.2.2, s1.2.2, s2.2.2⟩ with
  | true => rw [hoff] at hrest; simp at hrest
  | false =>
    rw [hoff] at hrest
    simp only [Bool.false_eq_true, if_false] at hrest
    simp only [exceptBind_ok] at hrest
    obtain ⟨origin, horig, ar, har, hout⟩ := hrest
    simp only [Except.ok.injEq, Prod.mk.injEq] at hout
    refine ⟨p0.1, p1.1, p2.1, q0.1, q1.1, q2.1, q2.2, t0, ac, originRaw,
            s0, s1, s2, origin, ar.1, ?_, ht0, hac, horaw, hs0, hs1, hs2,
            hoff, horig, ?_, ?_⟩
    · rw [hp0, hp1, hp2, hq0, hq1, hq2]
    · rw [← hout.2]; exact har
    · exact hout.1.symm

theorem parsePayload_ok {counts : List Nat} {rest : List String} {vox : NpArray} :
    parsePayload counts rest = Except.ok vox ↔
      ∃ qs, mapFloat (pySplit (String.join rest)) = Except.ok qs ∧
        qs.length = counts.prod ∧ vox = ⟨counts, qs⟩ := by
  unfold parsePayload
  cases hm : mapFloat (pySplit (String.join rest)) with
  | error e => simp [Except.bind]
  | ok qs =>
    simp only [Except.bind]
    by_cases hl : qs.length = counts.prod
    · simp [hl, eq_comm]
    · constructor
      · intro hcontra; simp [hl] at hcontra
      · rintro ⟨q, hq, hlen, -⟩
        simp only [Except.ok.injEq] at hq
        subst hq
        exact absurd hlen hl

theorem read_iterator_ok {self : Cubefile} {lines : List String} {res : Cubefile}
    (h : self.read_iterator lines = (res, none)) :
    ∃ c rest qs, parseHead lines = Except.ok (c, rest) ∧
      mapFloat (pySplit (String.join rest)) = Except.ok qs ∧
      qs.length = c.voxel_count.prod ∧
      res = { filename := self.filename, header := c.header, origin := c.origin,
              voxel_shape := c.voxel_shape, unit_conversion := c.unit_conversion,
              scale := c.scale, atoms := self.atoms ++ c.newAtoms,
              voxels := ⟨c.voxel_count, qs⟩ } := by
  unfold Cubefile.read_iterator at h
  cases hp : parseLines lines with
  | error e => rw [hp] at h; simp at h
  | ok cv =>
    rw [hp] at h
    simp only [Prod.mk.injEq] at h
    unfold parseLines at hp
    simp only [exceptBind_ok] at hp
    obtain ⟨⟨c, rest⟩, hh, vox, hv, hout⟩ := hp
    rw [parsePayload_ok] at hv
    obtain ⟨qs, hm, hl, rfl⟩ := hv
    simp only [Except.ok.injEq] at hout
    refine ⟨c, rest, qs, hh, hm, hl, ?_⟩
    rw [← h.1, ← hout]

theorem read_iterator_error_fst {self : Cubefile} {lines : List String}
    (h : ((self.read_iterator lines).2).isSome = true) :
    (self.read_iterator lines).1 = resetState := by
  unfold Cubefile.read_iterator at h ⊢
  cases hp : parseLines lines with
  | ok cv => rw [hp] at h; simp at h
  | error e => rfl

/-- C1: whenever `read_iterator` raises, the raised error is a `ValueError`
whose args start with "Error reading file" followed by the triggering cause's
args, and the record afterwards equals the default-initialized state in every
field: `filename = None`, empty header, zero origin, all-ones `voxel_shape`,
unit conversion of ones, scale of ones, no atoms, zero-size voxel grid. -/
theorem C1_failure_resets_and_wraps (self : Cubefile) (lines : List String)
    (res : Cubefile) (e : Exc)
    (h : self.read_iterator lines = (res, some e)) :
    (∃ args, e = Exc.valueError ("Error reading file" :: args)) ∧
    res = resetState ∧
    res.filename = none ∧ res.header = "" ∧ res.origin = ⟨0, 0, 0⟩ ∧
    res.voxel_shape = ⟨⟨1, 1, 1⟩, ⟨1, 1, 1⟩, ⟨1, 1, 1⟩⟩ ∧
    res.unit_conversion = ⟨1, 1, 1⟩ ∧ res.scale = ⟨1, 1, 1⟩ ∧
    res.atoms = [] ∧ res.voxels = ⟨[0], []⟩ := by
  unfold Cubefile.read_iterator at h
  cases hp : parseLines lines with
  | ok cv => rw [hp] at h; simp at h
  | error e2 =>
    rw [hp] at h
    simp only [Prod.mk.injEq, Option.some.injEq] at h
    obtain ⟨h1, h2⟩ := h
    subst h1
    exact ⟨⟨e2.args, h2.symm⟩, rfl, rfl, rfl, rfl, rfl, rfl, rfl, rfl, rfl⟩

/-- Witness for C1: the empty line stream makes `read_iterator` fail, and the
theorem's conclusion holds there. -/
theorem C1_failure_resets_and_wraps_witness :
    resetState.read_iterator [] =
      (resetState, some (Exc.valueError ["Error reading file"])) ∧
    ((∃ args, Exc.valueError ["Error reading file"] =
        Exc.valueError ("Error reading file" :: args)) ∧
      resetState = resetState ∧
      resetState.filename = none ∧ resetState.header = "" ∧
      resetState.origin = ⟨0, 0, 0⟩ ∧
      resetState.voxel_shape = ⟨⟨1, 1, 1⟩, ⟨1, 1, 1⟩, ⟨1, 1, 1⟩⟩ ∧
      resetState.unit_conversion = ⟨1, 1, 1⟩ ∧ resetState.scale = ⟨1, 1, 1⟩ ∧
      resetState.atoms = [] ∧ resetState.voxels = ⟨[0], []⟩) :=
  ⟨by with_unfolding_all rfl,
   C1_failure_resets_and_wraps resetState [] resetState
     (Exc.valueError ["Error reading file"]) (by with_unfolding_all rfl)⟩

/-- A well-formed cube input with one atom and a 1×1×1 voxel grid. -/
def oneAtomLines : List String :=
  ["a", "b", "1 0.0 0.0 0.0", "1 1.0 0.0 0.0", "1 0.0 1.0 0.0",
   "1 0.0 0.0 1.0", "6 0.0 0.1 0.2 0.3", "9.0"]

/-- Counterexample to C2: parsing `oneAtomLines` twice on the same record
ends the second (successful) parse with two atoms, while a fresh parse of the
same source yields one atom — the previously populated record's contents are
not discarded, so the resulting states differ. -/
theorem C2_reparse_counterexample :
    ((resetState.read_iterator oneAtomLines).1.read_iterator oneAtomLines).2 = none ∧
    ((resetState.read_iterator oneAtomLines).1.read_iterator oneAtomLines).1.atoms.length = 2 ∧
    (resetState.read_iterator oneAtomLines).1.atoms.length = 1 ∧
    ((resetState.read_iterator oneAtomLines).1.read_iterator oneAtomLines).1 ≠
      (resetState.read_iterator oneAtomLines).1 := by
  have h2 :
      ((resetState.read_iterator oneAtomLines).1.read_iterator oneAtomLines).1.atoms.length
        = 2 := by
    with_unfolding_all rfl
  have h1 : (resetState.read_iterator oneAtomLines).1.atoms.length = 1 := by
    with_unfolding_all rfl
  refine ⟨by with_unfolding_all rfl, h2, h1, fun hcontra => ?_⟩
  rw [hcontra, h1] at h2
  exact absurd h2 (by decide)

/-- C2 (amended): for every record `r` and every valid new source (one a
fresh parse succeeds on), re-invoking the parse overwrites every field except
`filename` with values derived from the new source but appends the newly
parsed atoms to the existing `atoms` list instead of clearing it; hence the
result coincides with the parse of that source on a fresh default-initialized
record exactly when the starting record has an empty atom list and no
filename — any record populated with atoms or a filename yields a different
state. -/
theorem C2_reparse_equals_fresh_iff_unpopulated (r : Cubefile) (lines : List String)
    (hvalid : (resetState.read_iterator lines).2 = none) :
    r.read_iterator lines = resetState.read_iterator lines ↔
      (r.atoms = [] ∧ r.filename = none) := by
  unfold Cubefile.read_iterator at hvalid ⊢
  cases hp : parseLines lines with
  | error e => rw [hp] at hvalid; simp at hvalid
  | ok cv =>
    constructor
    · intro h
      have hfn := congrArg (fun q : Cubefile × Option Exc => q.1.filename) h
      have hat := congrArg (fun q : Cubefile × Option Exc => q.1.atoms) h
      simp only [resetState] at hfn hat
      have hlen := congrArg List.length hat
      simp only [List.length_append, List.nil_append] at hlen
      exact ⟨List.eq_nil_of_length_eq_zero (by omega), hfn⟩
    · rintro ⟨hatoms, hfn⟩
      simp [hatoms, hfn, resetState]

/-- Witness for the amended C2: the record populated by parsing
`oneAtomLines` has a nonempty atom list, so by the biconditional its re-parse
of the same (valid) source differs from a fresh parse; the right-hand side is
refuted concretely by `C2_reparse_counterexample`'s length facts. -/
theorem C2_reparse_equals_fresh_iff_unpopulated_witness :
    (resetState.read_iterator oneAtomLines).2 = none ∧
    ((resetState.read_iterator oneAtomLines).1.read_iterator oneAtomLines =
        resetState.read_iterator oneAtomLines ↔
      ((resetState.read_iterator oneAtomLines).1.atoms = [] ∧
        (resetState.read_iterator oneAtomLines).1.filename = none)) :=
  ⟨by with_unfolding_all rfl,
   C2_reparse_equals_fresh_iff_unpopulated
     (resetState.read_iterator oneAtomLines).1 oneAtomLines
     (by with_unfolding_all rfl)⟩

/-- A cube input declaring a zero-length first axis: it parses successfully
and the resulting voxel grid has zero total size. -/
def zeroAxisLines : List String :=
  ["a", "b", "0 0.0 0.0 0.0", "0 1.0 0.0 0.0", "1 0.0 1.0 0.0", "1 0.0 0.0 1.0"]

/-- Counterexample to C4: `max_voxel_val` does have a failure mode — on the
default-initialized record and on a successfully parsed record whose grid has
zero total size, `abs(voxels).max()` raises (modelled by `none`). -/
theorem C4_max_voxel_val_counterexample :
    resetState.max_voxel_val = none ∧
    (resetState.read_iterator zeroAxisLines).2 = none ∧
    (resetState.read_iterator zeroAxisLines).1.voxels.shape = [0, 1, 1] ∧
    (resetState.read_iterator zeroAxisLines).1.max_voxel_val = none := by
  refine ⟨?_, ?_, ?_, ?_⟩ <;> with_unfolding_all rfl

/-- C4 (amended): `voxel_count`, `voxel_total` and `atom_count` are total
pure functions of the record state, while `max_voxel_val` fails exactly on
records whose voxel data is empty (the default state, and any parsed record
with a zero-size grid) and returns a value on every other state. -/
theorem C4_derived_properties (cf : Cubefile) :
    (cf.max_voxel_val = none ↔ cf.voxels.data = []) ∧
    cf.voxel_count = cf.voxels.shape ∧
    cf.voxel_total = cf.voxels.shape.prod ∧
    cf.atom_count = cf.atoms.length := by
  refine ⟨?_, rfl, rfl, rfl⟩
  unfold Cubefile.max_voxel_val npMax
  cases cf.voxels.data <;> simp

/-- Counterexample to C3: a list of lines is a line-iterable, yet when its
structural parsing fails, `read` swallows the structural error and raises the
input-kind error `ValueError("Could not read", data_source)` instead. -/
theorem C3_error_category_counterexample :
    (resetState.read emptyFs (Src.pyList ["x"])).2 =
      some (Exc.valueError ["Could not read", "<list>"]) := by
  with_unfolding_all rfl

/-- C3 (amended): a structural parse failure from a text-string source that
is not an existing path surfaces exactly as raised by `read_iterator`; a
structural failure from an iterable source is swallowed and replaced by the
input-kind error `ValueError("Could not read", data_source)`; and a
structural failure from an existing-path source is swallowed, after which the
path string itself is re-parsed as text, so the surfaced error is whatever
that re-parse produces rather than the file content's original error. -/
theorem C3_error_categories (fs : String → Option String)
    (s p content : String) (ls : List String) (e1 : Exc)
    (hnf : fs s = none)
    (hs : (resetState.read_iterator (splitlines s)).2 = some e1)
    (hl : ((resetState.read_iterator ls).2).isSome = true)
    (hp : fs p = some content)
    (hf : (((fileStartState resetState p).read_iterator
        (fileLines content)).2).isSome = true) :
    (resetState.read fs (Src.pyStr s)).2 = some e1 ∧
    resetState.read fs (Src.pyStr s) = resetState.read_iterator (splitlines s) ∧
    (resetState.read fs (Src.pyList ls)).2 =
      some (Exc.valueError ["Could not read", srcRepr (Src.pyList ls)]) ∧
    resetState.read fs (Src.pyStr p) = resetState.read_iterator (splitlines p) := by
  have hstr : resetState.read fs (Src.pyStr s) =
      resetState.read_iterator (splitlines s) := by
    simp only [Cubefile.read]
    rw [hnf]
  refine ⟨?_, hstr, ?_, ?_⟩
  · rw [hstr]; exact hs
  · simp only [Cubefile.read]
    cases hr : resetState.read_iterator ls with
    | mk r e2 =>
      cases e2 with
      | none => rw [hr] at hl; simp at hl
      | some e3 => rfl
  · simp only [Cubefile.read, hp]
    have hfst := read_iterator_error_fst hf
    cases hr : (fileStartState resetState p).read_iterator (fileLines content) with
    | mk r e2 =>
      cases e2 with
      | none => rw [hr] at hf; simp at hf
      | some e3 =>
        rw [hr] at hfst
        simp only [] at hfst
        rw [hfst]

/-- A one-file filesystem: the path "f" holds the (malformed) content "x". -/
def c3Fs : String → Option String := fun q => if q = "f" then some "x" else none

/-- Witness for the amended C3, on the filesystem `c3Fs`: the string source
"bad" is no path and fails structurally with its own error; the iterable
source `["bad"]` fails structurally and surfaces the input-kind error; the
path source "f" holds failing content and ends up re-parsing the path
string. -/
theorem C3_error_categories_witness :
    c3Fs "bad" = none ∧
    (resetState.read_iterator (splitlines "bad")).2 =
      some (Exc.valueError ["Error reading file"]) ∧
    ((resetState.read_iterator ["bad"]).2).isSome = true ∧
    c3Fs "f" = some "x" ∧
    (((fileStartState resetState "f").read_iterator (fileLines "x")).2).isSome = true ∧
    ((resetState.read c3Fs (Src.pyStr "bad")).2 =
        some (Exc.valueError ["Error reading file"]) ∧
      resetState.read c3Fs (Src.pyStr "bad") =
        resetState.read_iterator (splitlines "bad") ∧
      (resetState.read c3Fs (Src.pyList ["bad"])).2 =
        some (Exc.valueError ["Could not read", srcRepr (Src.pyList ["bad"])]) ∧
      resetState.read c3Fs (Src.pyStr "f") =
        resetState.read_iterator (splitlines "f")) :=
  ⟨by with_unfolding_all rfl, by with_unfolding_all rfl, by with_unfolding_all rfl,
   by with_unfolding_all rfl, by with_unfolding_all rfl,
   C3_error_categories c3Fs "bad" "f" "x" ["bad"]
     (Exc.valueError ["Error reading file"])
     (by with_unfolding_all rfl) (by with_unfolding_all rfl)
     (by with_unfolding_all rfl) (by with_unfolding_all rfl)
     (by with_unfolding_all rfl)⟩

/-- Cube content (counts 1, 1, 2) whose two payload tokens are separated only
by a line break. -/
def mergeContent : String :=
  "a\nb\n0 0.0 0.0 0.0\n1 1.0 0.0 0.0\n1 0.0 1.0 0.0\n2 0.0 0.0 1.0\n1.0\n2.0"

/-- The same cube content with the two payload tokens on one line. -/
def flatContent : String :=
  "a\nb\n0 0.0 0.0 0.0\n1 1.0 0.0 0.0\n1 0.0 1.0 0.0\n2 0.0 0.0 1.0\n1.0 2.0"

/-- A filesystem on which the path "f" holds `mergeContent`. -/
def mergeFs : String → Option String :=
  fun q => if q = "f" then some mergeContent else none

/-- Counterexample to C5: for a text-string source, two payload tokens
separated only by a line break are concatenated into one token (splitlines
drops the newline and the remaining lines are joined with no separator), so
`mergeContent` fails to parse while `flatContent` — the same tokens on one
line — succeeds; reading the very same bytes as a file (where each line keeps
its trailing newline) succeeds either way. -/
theorem C5_linebreak_counterexample :
    (resetState.read emptyFs (Src.pyStr flatContent)).2 = none ∧
    (resetState.read emptyFs (Src.pyStr flatContent)).1.voxels =
      ⟨[1, 1, 2], [1, 2]⟩ ∧
    ((resetState.read emptyFs (Src.pyStr mergeContent)).2).isSome = true ∧
    (resetState.read mergeFs (Src.pyStr "f")).2 = none ∧
    (resetState.read mergeFs (Src.pyStr "f")).1.voxels = ⟨[1, 1, 2], [1, 2]⟩ := by
  refine ⟨?_, ?_, ?_, ?_, ?_⟩ <;> with_unfolding_all rfl

/-- C5 (amended): the voxel grid depends on the lines remaining after the
atom list only through the whitespace tokenization of their direct,
separator-free concatenation.  Line breaks therefore carry no meaning exactly
when the line boundary carries adjacent whitespace (as for file sources,
whose lines keep their trailing newline); for sources whose lines lack a
terminator, tokens split by a bare line break are merged. -/
theorem C5_payload_token_semantics (self : Cubefile) (lines1 lines2 : List String)
    (c : HeadCore) (r1 r2 : List String)
    (h1 : parseHead lines1 = Except.ok (c, r1))
    (h2 : parseHead lines2 = Except.ok (c, r2))
    (ht : pySplit (String.join r1) = pySplit (String.join r2)) :
    self.read_iterator lines1 = self.read_iterator lines2 := by
  unfold Cubefile.read_iterator parseLines
  rw [h1, h2]
  simp only [Except.bind]
  unfold parsePayload
  rw [ht]

/-- A well-formed cube input: no atoms, counts 1, 1, 1 with a mixed-sign
axis declaration, payload "7.0" on one line. -/
def wLines : List String :=
  ["a", "b", "0 0.0 0.0 0.0", "1 1.0 0.0 0.0", "-1 0.0 1.0 0.0",
   "1 0.0 0.0 1.0", "7.0"]

/-- The same input with the payload followed by an extra empty line. -/
def wLinesSplit : List String :=
  ["a", "b", "0 0.0 0.0 0.0", "1 1.0 0.0 0.0", "-1 0.0 1.0 0.0",
   "1 0.0 0.0 1.0", "7.0", ""]

/-- The header-section parse result of `wLines`. -/
def wHead : HeadCore :=
  { header := "ab"
    origin := ⟨0, 0, 0⟩
    voxel_shape := ⟨⟨1, 0, 0⟩, ⟨0, 1, 0⟩, ⟨0, 0, 1⟩⟩
    unit_conversion := ⟨BOHR_TO_ANGSTROM, 1, BOHR_TO_ANGSTROM⟩
    scale := ⟨BOHR_TO_ANGSTROM ^ 2, 1, BOHR_TO_ANGSTROM ^ 2⟩
    newAtoms := []
    voxel_count := [1, 1, 1] }

/-- Witness for the amended C5: splitting the payload region of `wLines`
differently while keeping the same tokenization yields the same parse. -/
theorem C5_payload_token_semantics_witness :
    parseHead wLines = Except.ok (wHead, ["7.0"]) ∧
    parseHead wLinesSplit = Except.ok (wHead, ["7.0", ""]) ∧
    pySplit (String.join ["7.0"]) = pySplit (String.join ["7.0", ""]) ∧
    resetState.read_iterator wLines = resetState.read_iterator wLinesSplit :=
  ⟨by with_unfolding_all rfl, by with_unfolding_all rfl, by with_unfolding_all rfl,
   C5_payload_token_semantics resetState wLines wLinesSplit wHead ["7.0"] ["7.0", ""]
     (by with_unfolding_all rfl) (by with_unfolding_all rfl)
     (by with_unfolding_all rfl)⟩

theorem axis_ok_decl {line : String} {out : Nat × ℚ × Vec3} {n : Int}
    (h : axisStep line = Except.ok out)
    (hd : ((pySplit line).get? 0).bind pyIntCore = some n) :
    out.2.1 = (if n < 0 then (1 : ℚ) else BOHR_TO_ANGSTROM) ∧ out.1 = n.natAbs := by
  obtain ⟨t0, m, rowRaw, row, ht0, hm, -, -, hout⟩ := axisStep_ok h
  obtain ⟨t, ht, hn⟩ := Option.bind_eq_some.mp hd
  rw [ht0] at ht
  obtain rfl : t0 = t := by injection ht
  rw [hm] at hn
  obtain rfl : m = n := by injection hn
  subst hout
  refine ⟨rfl, ?_⟩
  split <;> omega

/-- C6: given that the header, axis and atom sections of the stream parse to
`c` with remainder `rest`, the whole parse succeeds if and only if every
payload token is numeric and the token count is exactly the product of the
three stored (absolute) axis counts; and on success the voxel array's shape
is exactly those three counts, its flat data being the tokens in row-major
order. -/
theorem C6_payload_exact_fill (self : Cubefile) (lines : List String)
    (c : HeadCore) (rest : List String)
    (hp : parseHead lines = Except.ok (c, rest)) :
    (((self.read_iterator lines).2 = none) ↔
      (∃ qs, mapFloat (pySplit (String.join rest)) = Except.ok qs ∧
        qs.length = c.voxel_count.prod)) ∧
    (∀ qs, mapFloat (pySplit (String.join rest)) = Except.ok qs →
      qs.length = c.voxel_count.prod →
      (self.read_iterator lines).1.voxels = ⟨c.voxel_count, qs⟩) := by
  unfold Cubefile.read_iterator parseLines
  rw [hp]
  simp only [Except.bind]
  cases hm : parsePayload c.voxel_count rest with
  | ok vox =>
    rw [parsePayload_ok] at hm
    obtain ⟨qs, hq, hlen, rfl⟩ := hm
    constructor
    · simp only [true_iff]
      exact ⟨qs, hq, hlen⟩
    · intro qs2 hq2 _
      rw [hq] at hq2
      obtain rfl : qs = qs2 := by injection hq2
      rfl
  | error e =>
    constructor
    · simp only [Option.some_ne_none, false_iff, not_exists, not_and]
      intro qs hq2 hlen
      have hok : parsePayload c.voxel_count rest = Except.ok ⟨c.voxel_count, qs⟩ :=
        parsePayload_ok.mpr ⟨qs, hq2, hlen, rfl⟩
      rw [hm] at hok
      exact Except.noConfusion hok
    · intro qs hq2 hlen
      have hok : parsePayload c.voxel_count rest = Except.ok ⟨c.voxel_count, qs⟩ :=
        parsePayload_ok.mpr ⟨qs, hq2, hlen, rfl⟩
      rw [hm] at hok
      exact Except.noConfusion hok

/-- Witness for C6 at `wLines`. -/
theorem C6_payload_exact_fill_witness :
    parseHead wLines = Except.ok (wHead, ["7.0"]) ∧
    ((((resetState.read_iterator wLines).2 = none) ↔
      (∃ qs, mapFloat (pySplit (String.join ["7.0"])) = Except.ok qs ∧
        qs.length = wHead.voxel_count.prod)) ∧
    (∀ qs, mapFloat (pySplit (String.join ["7.0"])) = Except.ok qs →
      qs.length = wHead.voxel_count.prod →
      (resetState.read_iterator wLines).1.voxels = ⟨wHead.voxel_count, qs⟩)) :=
  ⟨by with_unfolding_all rfl,
   C6_payload_exact_fill resetState wLines wHead ["7.0"] (by with_unfolding_all rfl)⟩

/-- C7: on every successful parse, `unit_conversion[i]` is exactly 1 when the
declared (signed) voxel count of axis `i` was negative and exactly the
Bohr-to-Ångström constant when it was non-negative, and the stored per-axis
voxel count is the absolute value of the declared one. -/
theorem C7_unit_conversion_sign_rule (self : Cubefile) (lines : List String)
    (res : Cubefile) (i : Fin 3) (n : Int)
    (hok : self.read_iterator lines = (res, none))
    (hdecl : declaredAxisCount lines i = some n) :
    res.unit_conversion.nth i = (if n < 0 then (1 : ℚ) else BOHR_TO_ANGSTROM) ∧
    res.voxels.shape.get? i.val = some n.natAbs := by
  obtain ⟨c, rest, qs, hh, hm, hlen, hres⟩ := read_iterator_ok hok
  obtain ⟨l0, l1, l2, a0, a1, a2, tail, t0, ac, originRaw, s0, s1, s2, origin, atoms,
          hlines, ht0, hac, horaw, hs0, hs1, hs2, hoff, horig, hatoms, hc⟩ :=
    parseHead_ok hh
  subst hlines hres hc
  fin_cases i
  · simp only [declaredAxisCount] at hdecl
    simp only [List.get?] at hdecl
    obtain ⟨h1, h2⟩ := axis_ok_decl hs0 hdecl
    exact ⟨by simp [Vec3.nth, h1], by simp [h2]⟩
  · simp only [declaredAxisCount] at hdecl
    simp only [List.get?] at hdecl
    obtain ⟨h1, h2⟩ := axis_ok_decl hs1 hdecl
    exact ⟨by simp [Vec3.nth, h1], by simp [h2]⟩
  · simp only [declaredAxisCount] at hdecl
    simp only [List.get?] at hdecl
    obtain ⟨h1, h2⟩ := axis_ok_decl hs2 hdecl
    exact ⟨by simp [Vec3.nth, h1], by simp [h2]⟩

/-- The record produced by parsing `wLines` on a fresh object. -/
def wRes : Cubefile :=
  { filename := none
    header := "ab"
    origin := ⟨0, 0, 0⟩
    voxel_shape := ⟨⟨1, 0, 0⟩, ⟨0, 1, 0⟩, ⟨0, 0, 1⟩⟩
    unit_conversion := ⟨BOHR_TO_ANGSTROM, 1, BOHR_TO_ANGSTROM⟩
    scale := ⟨BOHR_TO_ANGSTROM ^ 2, 1, BOHR_TO_ANGSTROM ^ 2⟩
    atoms := []
    voxels := ⟨[1, 1, 1], [7]⟩ }

/-- Witness for C7: axis 1 of `wLines` is declared as -1, so its unit
conversion is 1 and its stored count is 1. -/
theorem C7_unit_conversion_sign_rule_witness :
    resetState.read_iterator wLines = (wRes, none) ∧
    declaredAxisCount wLines 1 = some (-1) ∧
    (wRes.unit_conversion.nth 1 =
        (if (-1 : Int) < 0 then (1 : ℚ) else BOHR_TO_ANGSTROM) ∧
      wRes.voxels.shape.get? (1 : Fin 3).val = some (-1 : Int).natAbs) :=
  ⟨by with_unfolding_all rfl, by with_unfolding_all rfl,
   C7_unit_conversion_sign_rule resetState wLines wRes 1 (-1)
     (by with_unfolding_all rfl) (by with_unfolding_all rfl)⟩

/-- C8: every input stream whose three step vectors form a non-diagonal
matrix is rejected — equivalently, on every successful parse the stored
`voxel_shape` (the step vectors as read from the stream) has all off-diagonal
entries exactly zero.  Diagonal step vectors pass this check (the witness
exhibits a successful diagonal parse). -/
theorem C8_nondiagonal_always_fails (self : Cubefile) (lines : List String)
    (res : Cubefile) (hok : self.read_iterator lines = (res, none)) :
    offDiagAny res.voxel_shape = false := by
  obtain ⟨c, rest, qs, hh, hm, hlen, hres⟩ := read_iterator_ok hok
  obtain ⟨l0, l1, l2, a0, a1, a2, tail, t0, ac, originRaw, s0, s1, s2, origin, atoms,
          hlines, ht0, hac, horaw, hs0, hs1, hs2, hoff, horig, hatoms, hc⟩ :=
    parseHead_ok hh
  subst hres hc
  exact hoff

/-- Witness for C8 at the successful diagonal parse of `wLines`. -/
theorem C8_nondiagonal_always_fails_witness :
    resetState.read_iterator wLines = (wRes, none) ∧
    offDiagAny wRes.voxel_shape = false :=
  ⟨by with_unfolding_all rfl,
   C8_nondiagonal_always_fails resetState wLines wRes (by with_unfolding_all rfl)⟩

/-- A cube input declaring atom count -2: it parses successfully, consuming
no atom lines at all. -/
def negAtomLines : List String :=
  ["a", "b", "-2 0.0 0.0 0.0", "1 1.0 0.0 0.0", "1 0.0 1.0 0.0",
   "1 0.0 0.0 1.0", "5.0"]

/-- Counterexample to C9: a stream declaring atom count -2 parses
successfully with an empty atom list and zero consumed atom lines — not
every integer the header may declare is treated as a plain positive count;
negative counts are clamped to zero. -/
theorem C9_negative_count_counterexample :
    declaredAtomCount negAtomLines = some (-2) ∧
    (resetState.read_iterator negAtomLines).2 = none ∧
    (resetState.read_iterator negAtomLines).1.atoms = [] := by
  refine ⟨?_, ?_, ?_⟩ <;> with_unfolding_all rfl

/-- C9 (amended): on a successful parse from the default state with declared
atom count `n`, exactly `max n 0` atom lines are consumed (the payload
remainder starts `6 + toNat n` lines in) and the atom list has length
`max n 0`: non-negative declared counts behave as plain counts, negative ones
as zero. -/
theorem C9_atom_count_clamped (lines : List String) (res : Cubefile) (n : Int)
    (hok : resetState.read_iterator lines = (res, none))
    (hdecl : declaredAtomCount lines = some n) :
    (res.atoms.length : Int) = max n 0 ∧
    (∃ c, parseHead lines = Except.ok (c, lines.drop (6 + n.toNat))) := by
  obtain ⟨c, rest, qs, hh, hm, hlen, hres⟩ := read_iterator_ok hok
  obtain ⟨l0, l1, l2, a0, a1, a2, tail, t0, ac, originRaw, s0, s1, s2, origin, atoms,
          hlines, ht0, hac, horaw, hs0, hs1, hs2, hoff, horig, hatoms, hc⟩ :=
    parseHead_ok hh
  subst hlines
  simp only [declaredAtomCount, List.get?, Option.some_bind] at hdecl
  obtain ⟨t, ht, hn⟩ := Option.bind_eq_some.mp hdecl
  rw [ht0] at ht
  obtain rfl : t0 = t := by injection ht
  rw [hac] at hn
  obtain rfl : ac = n := by injection hn
  obtain ⟨hlen2, hdrop⟩ := readAtoms_ok hatoms
  simp only [] at hlen2 hdrop
  constructor
  · subst hres hc
    simp only [resetState, List.nil_append]
    rw [hlen2]
    omega
  · refine ⟨c, ?_⟩
    rw [hh, hdrop]
    have h6 : 6 + ac.toNat = ac.toNat + 1 + 1 + 1 + 1 + 1 + 1 := by omega
    rw [h6]
    simp only [List.drop_succ_cons]

/-- Witness for the amended C9 at `negAtomLines` (declared count -2). -/
theorem C9_atom_count_clamped_witness :
    resetState.read_iterator negAtomLines =
      ({ filename := none
         header := "ab"
         origin := ⟨0, 0, 0⟩
         voxel_shape := ⟨⟨1, 0, 0⟩, ⟨0, 1, 0⟩, ⟨0, 0, 1⟩⟩
         unit_conversion := ⟨BOHR_TO_ANGSTROM, BOHR_TO_ANGSTROM, BOHR_TO_ANGSTROM⟩
         scale := ⟨BOHR_TO_ANGSTROM ^ 2, BOHR_TO_ANGSTROM ^ 2, BOHR_TO_ANGSTROM ^ 2⟩
         atoms := []
         voxels := ⟨[1, 1, 1], [5]⟩ }, none) ∧
    declaredAtomCount negAtomLines = some (-2) ∧
    (((({ filename := none
          header := "ab"
          origin := ⟨0, 0, 0⟩
          voxel_shape := ⟨⟨1, 0, 0⟩, ⟨0, 1, 0⟩, ⟨0, 0, 1⟩⟩
          unit_conversion := ⟨BOHR_TO_ANGSTROM, BOHR_TO_ANGSTROM, BOHR_TO_ANGSTROM⟩
          scale := ⟨BOHR_TO_ANGSTROM ^ 2, BOHR_TO_ANGSTROM ^ 2, BOHR_TO_ANGSTROM ^ 2⟩
          atoms := []
          voxels := ⟨[1, 1, 1], [5]⟩ } : Cubefile).atoms.length : Int) = max (-2) 0) ∧
      (∃ c, parseHead negAtomLines =
        Except.ok (c, negAtomLines.drop (6 + (-2 : Int).toNat)))) :=
  ⟨by with_unfolding_all rfl, by with_unfolding_all rfl,
   C9_atom_count_clamped negAtomLines
     { filename := none
       header := "ab"
       origin := ⟨0, 0, 0⟩
       voxel_shape := ⟨⟨1, 0, 0⟩, ⟨0, 1, 0⟩, ⟨0, 0, 1⟩⟩
       unit_conversion := ⟨BOHR_TO_ANGSTROM, BOHR_TO_ANGSTROM, BOHR_TO_ANGSTROM⟩
       scale := ⟨BOHR_TO_ANGSTROM ^ 2, BOHR_TO_ANGSTROM ^ 2, BOHR_TO_ANGSTROM ^ 2⟩
       atoms := []
       voxels := ⟨[1, 1, 1], [5]⟩ } (-2)
     (by with_unfolding_all rfl) (by with_unfolding_all rfl)⟩

/-- C10: constructing a `Cubefile` with a falsy source — `None`, the empty
string, `0`, or an empty list — performs no parsing and no error is raised:
the record is exactly the default-initialized state, for every filesystem;
yet explicitly reading the empty string as cube content does fail. -/
theorem C10_falsy_source_skips_read :
    (∀ fs, Cubefile.init fs Src.pyNone = (resetState, none)) ∧
    (∀ fs, Cubefile.init fs (Src.pyStr "") = (resetState, none)) ∧
    (∀ fs, Cubefile.init fs (Src.pyInt 0) = (resetState, none)) ∧
    (∀ fs, Cubefile.init fs (Src.pyList []) = (resetState, none)) ∧
    ((resetState.read emptyFs (Src.pyStr "")).2).isSome = true := by
  refine ⟨fun fs => by with_unfolding_all rfl, fun fs => by with_unfolding_all rfl,
         fun fs => by with_unfolding_all rfl, fun fs => by with_unfolding_all rfl,
         by with_unfolding_all rfl⟩

end CubeModel
